import Mathlib

/-!
Verification of the client-side logic of the legal-document analyzer
front end: upload validation (`components/ui/file-upload.tsx`), the
processing-status pollers (`app/page.tsx` `ProcessingMonitor.checkStatus`
and `components/ui/summary.tsx` `Summary.pollStatus`), and the chat
machines (`components/ui/rag-chat.tsx` `RAGChat.sendMessage`, first
variant, and `app/page.tsx` `ChatInterface.sendMessage`).

The TypeScript is embedded shallowly: each handler becomes a pure Lean
function over an explicit state, network activity becomes an explicit
effect/event list, and server responses are passed in as data.  All
steps are atomic, matching the browser's single-threaded event loop.
JavaScript string truthiness (`undefined`, `null` and `""` are falsy)
is modelled explicitly by `jsOr` / `jsTruthyOpt`.
-/

namespace LegalApp

/-- JS fallback `a || b` for an optional string `a`: the default is used
when the value is missing (`undefined`/`null`) or the empty string,
since `""` is falsy in JavaScript. -/
def jsOr (o : Option String) (d : String) : String :=
  match o with
  | some s => if s = "" then d else s
  | none => d

/-- JS truthiness of an optional string (e.g. a `sessionId` prop of type
`string | null`): truthy iff present and non-empty. -/
def jsTruthyOpt (o : Option String) : Bool :=
  match o with
  | some s => !(s == "")
  | none => false

/-- `String.prototype.split` with a one-character separator, on the
character list of the string.  Splitting never yields an empty list;
splitting the empty string yields `[[]]`, exactly as in JS. -/
def splitChar (sep : Char) : List Char → List (List Char)
  | [] => [[]]
  | c :: t =>
    match splitChar sep t with
    | [] => [[c]]
    | h :: t2 => if c == sep then [] :: h :: t2 else (c :: h) :: t2

/-- Does `pat` occur in `hay` as a contiguous sublist?  (The recursion
tries every suffix; the empty pattern always occurs.) -/
def subOccurs : List Char → List Char → Bool
  | hay, pat =>
    pat.isPrefixOf hay ||
      (match hay with
       | [] => false
       | _ :: t => subOccurs t pat)

/-- JS `String.prototype.split` with a one-character separator. -/
def jsSplit (s : String) (sep : Char) : List String :=
  (splitChar sep s.data).map String.mk

/-- JS `String.prototype.includes`. -/
def jsIncludes (s pat : String) : Bool := subOccurs s.data pat.data

/-- JS `String.prototype.toLowerCase` (exact on the ASCII file names and
extensions the claims concern). -/
def jsToLower (s : String) : String := String.mk (s.data.map Char.toLower)

/-- JS `String.prototype.trim`: strip leading and trailing whitespace. -/
def jsTrim (s : String) : String :=
  String.mk
    (((s.data.dropWhile Char.isWhitespace).reverse.dropWhile
        Char.isWhitespace).reverse)

/-- Concatenate character lists with a separator between them —
the recursion behind `Array.prototype.join`. -/
def intercalateList (sep : List Char) : List (List Char) → List Char
  | [] => []
  | [x] => x
  | x :: xs => x ++ sep ++ intercalateList sep xs

/-- JS `Array.prototype.join`. -/
def jsJoin (sep : String) (l : List String) : String :=
  String.mk (intercalateList sep.data (l.map String.data))

/-! ## Upload validation (`components/ui/file-upload.tsx`, `handleFile`) -/

/-- The allow-list from `handleFile`:
`const allowedTypes = ['.pdf', '.txt', '.docx', '.doc']`. -/
def allowedTypes : List String := [".pdf", ".txt", ".docx", ".doc"]

/-- The text after the last `'.'` of a file name (the whole name when it
contains no dot) — the notion of "extension" used to state claims about
the validator.  `name.split('.')` never yields an empty array, so the
`getLastD` default is never used. -/
def lastDotSuffix (name : String) : String :=
  (jsSplit name '.').getLastD ""

/-- The extension string `handleFile` actually compares:
`const ext = file.name.includes('.') ? file.name.split('.').pop() : '';`
`const fileExt = '.' + (ext ? ext.toLowerCase() : '');`. -/
def fileExtOf (name : String) : String :=
  let ext := if jsIncludes name "." then lastDotSuffix name else ""
  "." ++ (if ext = "" then "" else jsToLower ext)

/-- Result of the client-side part of `handleFile`: either a rejection
with the user-facing message (no network activity), or the multipart
`POST /upload` request is issued. -/
inductive UploadOutcome where
  | rejected (msg : String)
  | uploadRequest
deriving DecidableEq

/-- `handleFile` up to its first network call: the extension check runs
first, then the 50MB size check (`file.size > 50 * 1024 * 1024`); only
when both pass is the upload request issued. -/
def handleFile (name : String) (size : Nat) : UploadOutcome :=
  if fileExtOf name ∉ allowedTypes then
    .rejected ("Unsupported file type. Please upload: " ++
      jsJoin ", " allowedTypes)
  else if size > 50 * 1024 * 1024 then
    .rejected "File too large. Maximum size is 50MB."
  else
    .uploadRequest

/-! ## Status pollers -/

/-- The `session` object of a `GET /status/{sessionId}` response:
`{ status, error? }`. -/
structure SessionStatus where
  status : String
  error : Option String
deriving DecidableEq

/-- Outcome of one axios request: a parsed value, or a thrown error
carrying the optional `error.response?.data?.detail` string. -/
inductive Fetch (α : Type) where
  | ok (val : α)
  | thrown (detail : Option String)
deriving DecidableEq

/-- Observable events of a polling run: network requests issued, state
setters invoked, and `setTimeout` delays. -/
inductive MonitorEvent where
  | statusGet
  | statusSet (st : String)
  | progressSet (n : Nat)
  | sleep (ms : Nat)
  | resultsGet
  | complete
  | summarySet
  | errorSet (msg : String)
deriving DecidableEq

/-- `ProcessingMonitor.checkStatus` (`app/page.tsx` lines 587-623) run
against a script of successive status responses; `res` is the outcome of
the `GET /results/{sessionId}` request issued when a `completed` status
arrives (`res.data.success` as a `Bool`, or a thrown error).  An empty
script means the current status request is still outstanding.  A thrown
status request hits the `catch` block, which reports
`detail || 'Failed to check processing status'` and does not reschedule. -/
def runMonitor : List (Fetch SessionStatus) → Fetch Bool → List MonitorEvent
  | [], _ => []
  | .thrown d :: _, _ =>
    [.statusGet, .errorSet (jsOr d "Failed to check processing status")]
  | .ok sess :: rest, res =>
    .statusGet :: .statusSet sess.status ::
    (if sess.status = "uploaded" then
      .progressSet 25 :: .sleep 2000 :: runMonitor rest res
    else if sess.status = "processing" then
      .progressSet 50 :: .sleep 2000 :: runMonitor rest res
    else if sess.status = "completed" then
      .progressSet 100 :: .resultsGet ::
        (match res with
         | .ok true => [.complete]
         | .ok false => []
         | .thrown d => [.errorSet (jsOr d "Failed to check processing status")])
    else if sess.status = "failed" then
      [.errorSet (jsOr sess.error "Processing failed")]
    else
      .progressSet 10 :: .sleep 2000 :: runMonitor rest res)

/-- `Summary.pollStatus` (`components/ui/summary.tsx` lines 50-73) run
against a script of status responses.  Differences from the monitor: a
thrown request is only logged to the console (no reschedule, no error
banner), a successful results response stores the summary, and every
non-terminal status reschedules after 2000ms. -/
def runPollStatus : List (Fetch SessionStatus) → Fetch Bool → List MonitorEvent
  | [], _ => []
  | .thrown _ :: _, _ => [.statusGet]
  | .ok sess :: rest, res =>
    .statusGet :: .statusSet sess.status ::
    (if sess.status = "completed" then
      .resultsGet ::
        (match res with
         | .ok true => [.summarySet]
         | .ok false => []
         | .thrown _ => [])
    else if sess.status = "failed" then
      [.errorSet (jsOr sess.error "Processing failed")]
    else
      .sleep 2000 :: runPollStatus rest res)

/-- Number of `GET /status` requests in an event trace. -/
def countStatusGets : List MonitorEvent → Nat
  | [] => 0
  | .statusGet :: t => countStatusGets t + 1
  | _ :: t => countStatusGets t

/-- Number of `GET /results` requests in an event trace. -/
def countResultsGets : List MonitorEvent → Nat
  | [] => 0
  | .resultsGet :: t => countResultsGets t + 1
  | _ :: t => countResultsGets t

/-- The page-level state touched by the monitor's callbacks in
`app/page.tsx`: the wizard step, the displayed status/progress, whether
results were stored, and the error banner. -/
structure PageState where
  currentStep : String
  processingStatus : Option String
  progress : Nat
  resultsStored : Bool
  pageError : Option String
deriving DecidableEq

/-- How each monitor event updates the page state.  `complete` is the
`onComplete` callback (`app/page.tsx` lines 375-380): it stores the
results, sets the status to `completed` and moves the view to the
`results` step. -/
def applyEvent (ps : PageState) : MonitorEvent → PageState
  | .statusSet st => { ps with processingStatus := some st }
  | .progressSet n => { ps with progress := n }
  | .errorSet m => { ps with pageError := some m }
  | .complete =>
    { ps with resultsStored := true, processingStatus := some "completed",
              currentStep := "results" }
  | _ => ps

/-- Fold a trace of monitor events over the page state. -/
def applyEvents (ps : PageState) (evs : List MonitorEvent) : PageState :=
  evs.foldl applyEvent ps

/-! ## Chat machine (`components/ui/rag-chat.tsx`, first component) -/

/-- A source citation attached to an assistant message.  The TypeScript
field `section` is renamed `sectionLabel` (`section` is a Lean keyword);
numeric fields are carried as integers, which the claims never inspect. -/
structure Source where
  chunk_id : Option String := none
  title : Option String := none
  sectionLabel : Option String := none
  relevance_score : Option Int := none
  text_preview : Option String := none
  entities : Option (List String) := none
  excerpt : Option String := none
deriving DecidableEq

/-- The `query_analysis` object of a chat response. -/
structure QueryAnalysis where
  query_type : Option String := none
  key_concepts : Option (List String) := none
  entities : Option (List String) := none
deriving DecidableEq

/-- Message author. -/
inductive Role where
  | user
  | assistant
deriving DecidableEq

/-- The `ChatMessage` record of the source.  Optional TypeScript fields
become `Option`s defaulting to `none`; the optional `error?: boolean`
flag is carried as a `Bool` defaulting to `false` (absent and `false`
are indistinguishable to the rendering code, which only tests
truthiness). -/
structure ChatMessage where
  role : Role
  message : String
  timestamp : String
  sources : Option (List Source) := none
  confidence : Option Int := none
  query_analysis : Option QueryAnalysis := none
  error : Bool := false
  processing_time : Option Int := none
deriving DecidableEq

/-- `const OPTIMIZED_TIMEOUT = 25000;` (`rag-chat.tsx` line 35). -/
def OPTIMIZED_TIMEOUT : Nat := 25000

/-- `const LOAD_TIMEOUT = 45000;` (`rag-chat.tsx` line 36). -/
def LOAD_TIMEOUT : Nat := 45000

/-- The outstanding chat request recorded by a successful `sendMessage`
call: the query sent, the `isFirstQuery` flag captured at send time and
the timeout armed on its abort controller. -/
structure PendingChat where
  query : String
  isFirstQuery : Bool
  timeoutMs : Nat
deriving DecidableEq

/-- Component-local state of `RAGChat` (plus the page-level `error`
banner passed in through `setError`).  `pending` is `some` exactly while
a chat request is outstanding — it plays the role of
`abortControllerRef.current`, which is set just before the `fetch` and
cleared in the `finally` block. -/
structure ChatState where
  message : String
  isLoading : Bool
  isInitialLoad : Bool
  loadingState : String
  sessionLoaded : Bool
  chatHistory : List ChatMessage
  pageError : Option String
  pending : Option PendingChat
deriving DecidableEq

/-- The component's initial state: empty input, nothing loading, no
history, no outstanding request. -/
def initChatState : ChatState :=
  { message := "", isLoading := false, isInitialLoad := false,
    loadingState := "", sessionLoaded := false, chatHistory := [],
    pageError := none, pending := none }

/-- The input `onChange` handler: `setMessage(e.target.value)`. -/
def setInput (v : String) (s : ChatState) : ChatState :=
  { s with message := v }

/-- Externally visible network actions of a `sendMessage` call. -/
inductive ChatEffect where
  | abortPrior
  | chatRequest (sessionId query : String) (timeoutMs : Option Nat)
deriving DecidableEq

/-- `RAGChat.sendMessage` (`rag-chat.tsx` lines 101-137) up to the point
where its `fetch` is awaited.  Guard:
`if (!message.trim() || isLoading || !sessionId) return;`.
Otherwise the trimmed user message is appended, the input cleared,
loading begins, the page error is cleared, `isFirstQuery` is computed
from the pre-append history (`!sessionLoaded && chatHistory.length === 0`),
any previously recorded abort controller is aborted, and the `POST
/chat/{sessionId}` request is issued with the chosen timeout armed. -/
def sendMessage (sessionId : Option String) (now : String) (s : ChatState) :
    ChatState × List ChatEffect :=
  if jsTrim s.message == "" || s.isLoading || !jsTruthyOpt sessionId then
    (s, [])
  else
    let trimmed := jsTrim s.message
    let userMessage : ChatMessage :=
      { role := .user, message := trimmed, timestamp := now }
    let isFirstQuery := !s.sessionLoaded && s.chatHistory.length == 0
    let timeout := if isFirstQuery then LOAD_TIMEOUT else OPTIMIZED_TIMEOUT
    ({ s with
        chatHistory := s.chatHistory ++ [userMessage],
        message := "",
        isLoading := true,
        pageError := none,
        isInitialLoad := isFirstQuery,
        loadingState :=
          if isFirstQuery then "Loading document embeddings from database..."
          else "Processing your question...",
        pending := some
          { query := trimmed, isFirstQuery := isFirstQuery, timeoutMs := timeout } },
     (if s.pending.isSome then [ChatEffect.abortPrior] else []) ++
       [ChatEffect.chatRequest (sessionId.getD "") trimmed (some timeout)])

/-- A raw `POST /chat` HTTP response as `sendMessage` inspects it:
`ok`/`status` from the response object, `jsonOk` records whether the
body parsed as JSON (with `detail`/`message` fields and the raw text
fallback), and the remaining fields are the parsed success payload. -/
structure ChatHttpResponse where
  ok : Bool
  status : Nat
  jsonOk : Bool
  detail : Option String := none
  message : Option String := none
  textBody : String := ""
  success : Bool := false
  error_details : Option String := none
  answer : Option String := none
  sources : Option (List Source) := none
  confidence : Option Int := none
  query_analysis : Option QueryAnalysis := none
  processing_time : Option Int := none
deriving DecidableEq

/-- How a chat request resolves, as seen by the `try`/`catch` of
`sendMessage`: an `AbortError` (timeout fired or controller aborted), a
thrown `Error` carrying a message (non-2xx response, unsuccessful
payload, or a network failure), or a successful payload. -/
inductive ChatOutcome where
  | aborted
  | failure (msg : String)
  | answer (ans : Option String) (sources : Option (List Source))
      (confidence : Option Int) (qa : Option QueryAnalysis) (pt : Option Int)
deriving DecidableEq

/-- The `try`-body logic of `sendMessage` after the response arrives
(`rag-chat.tsx` lines 153-184): a non-2xx response throws
`errorData.detail || errorData.message || 'Server error: <status>'`
(falling back to the raw body text when the body is not JSON); a 2xx
response with `success: false` throws
`data.error_details || data.message || 'Chat processing failed'`;
otherwise the payload is the answer. -/
def classifyChatResponse (r : ChatHttpResponse) : ChatOutcome :=
  if !r.ok then
    let base := "Server error: " ++ toString r.status
    .failure (if r.jsonOk then jsOr r.detail (jsOr r.message base)
              else if r.textBody == "" then base else r.textBody)
  else if r.success then
    .answer r.answer r.sources r.confidence r.query_analysis r.processing_time
  else
    .failure (jsOr r.error_details (jsOr r.message "Chat processing failed"))

/-- The timeout message shown when the presumed first/cold query is
aborted (`rag-chat.tsx` line 193). -/
def loadTimeoutMsg : String :=
  "Document loading timed out. The document may be large or the server may be busy. Please try again."

/-- The timeout message shown when a later query is aborted
(`rag-chat.tsx` line 195). -/
def queryTimeoutMsg : String :=
  "Query timed out. Please try a simpler question or try again."

/-- The non-abort branch of the `catch` handler (`rag-chat.tsx` lines
197-205): substring checks on the thrown message select a tailored
string, a non-empty message is shown as-is, and an empty one falls back
to the generic apology. -/
def chatFailureMessage (msg : String) : String :=
  if jsIncludes msg "404" || jsIncludes msg "not found" then
    "Session not found. Please upload a document first or check if the session is still active."
  else if jsIncludes msg "Failed to load session" then
    "Could not load your document. Please check if it was uploaded correctly and try again."
  else if jsIncludes msg "500" || jsIncludes msg "Server error" then
    "Server error occurred. Please try again in a moment."
  else if msg == "" then
    "Sorry, I encountered an error processing your question."
  else
    msg

/-- The error path shared by all `catch` outcomes: set the page error,
append a synthetic assistant message flagged `error: true`, and run the
`finally` block (loading flags cleared, controller ref nulled). -/
def appendChatError (now m : String) (s : ChatState) : ChatState :=
  { s with
      pageError := some m,
      chatHistory := s.chatHistory ++
        [{ role := .assistant, message := m, timestamp := now, error := true }],
      isLoading := false, isInitialLoad := false, loadingState := "",
      pending := none }

/-- Resolution of the outstanding chat request `p` (`rag-chat.tsx` lines
165-220).  A successful payload appends the assistant message (with the
`data.answer || '...'` fallback and `data.sources || []`), marks the
session loaded when this was the first query, and runs the `finally`
block.  An abort or a thrown error takes the `catch` path.  No branch
issues another request: there is no automatic retry. -/
def resolveChat (now : String) (s : ChatState) (p : PendingChat)
    (r : ChatOutcome) : ChatState × List ChatEffect :=
  match r with
  | .answer ans srcs conf qa pt =>
    ({ s with
        chatHistory := s.chatHistory ++
          [{ role := .assistant,
             message := jsOr ans "I apologize, but I was unable to generate a response.",
             timestamp := now,
             sources := some (srcs.getD []),
             confidence := conf, query_analysis := qa, processing_time := pt }],
        sessionLoaded := if p.isFirstQuery then true else s.sessionLoaded,
        isLoading := false, isInitialLoad := false, loadingState := "",
        pending := none },
     [])
  | .aborted =>
    (appendChatError now
      (if p.isFirstQuery then loadTimeoutMsg else queryTimeoutMsg) s, [])
  | .failure msg =>
    (appendChatError now (chatFailureMessage msg) s, [])

/-- States of the `RAGChat` component reachable from its initial state
under typing into the input, `sendMessage` calls, and resolutions of the
outstanding request. -/
inductive ChatReachable (sid : Option String) : ChatState → Prop where
  | init : ChatReachable sid initChatState
  | input (v : String) (s : ChatState) :
      ChatReachable sid s → ChatReachable sid (setInput v s)
  | send (now : String) (s : ChatState) :
      ChatReachable sid s → ChatReachable sid (sendMessage sid now s).1
  | resolve (now : String) (s : ChatState) (p : PendingChat) (r : ChatOutcome) :
      ChatReachable sid s → s.pending = some p →
      ChatReachable sid (resolveChat now s p r).1

/-! ## Chat machine (`app/page.tsx`, `ChatInterface.sendMessage`) -/

/-- Component-local state of `ChatInterface` (`app/page.tsx`): the same
shape minus the timeout machinery, plus the `ragInitialized` flag set by
the `POST /init/{sessionId}` warm-up. -/
structure CIState where
  message : String
  isLoading : Bool
  ragInitialized : Bool
  chatHistory : List ChatMessage
  pageError : Option String
deriving DecidableEq

/-- `ChatInterface.sendMessage` (`app/page.tsx` lines 1069-1080) up to
its awaited axios call.  Guard:
`if (!message.trim() || isLoading || !ragInitialized) return;`.
The axios call carries no explicit client-side timeout. -/
def ciSendMessage (sessionId now : String) (s : CIState) :
    CIState × List ChatEffect :=
  if jsTrim s.message == "" || s.isLoading || !s.ragInitialized then
    (s, [])
  else
    let userMessage : ChatMessage :=
      { role := .user, message := jsTrim s.message, timestamp := now }
    ({ s with
        chatHistory := s.chatHistory ++ [userMessage],
        message := "",
        isLoading := true },
     [ChatEffect.chatRequest sessionId (jsTrim s.message) none])

/-- How a `ChatInterface` chat request resolves: a successful payload
(`response.data.success`), or a thrown axios error carrying the optional
`response.data.detail` and the error message. -/
inductive CIOutcome where
  | success (answer : String) (sources : Option (List Source))
      (confidence : Option Int) (qa : Option QueryAnalysis)
  | failure (detail : Option String) (msg : String)
deriving DecidableEq

/-- Resolution of a `ChatInterface` chat request (`app/page.tsx` lines
1087-1113): success appends the assistant message (with
`data.sources || []`); any failure sets the page error to
`'Chat failed: ' + (detail || message)` and appends the fixed apology
message flagged `error: true`.  No branch retries. -/
def ciResolve (now : String) (s : CIState) (r : CIOutcome) :
    CIState × List ChatEffect :=
  match r with
  | .success answer srcs conf qa =>
    ({ s with
        chatHistory := s.chatHistory ++
          [{ role := .assistant, message := answer, timestamp := now,
             sources := some (srcs.getD []), confidence := conf,
             query_analysis := qa }],
        isLoading := false },
     [])
  | .failure detail msg =>
    ({ s with
        pageError := some ("Chat failed: " ++ jsOr detail msg),
        chatHistory := s.chatHistory ++
          [{ role := .assistant,
             message := "Sorry, I encountered an error processing your question. Please try again.",
             timestamp := now, error := true }],
        isLoading := false },
     [])


/-! ## Theorems -/

/-- The rejection message for a disallowed type is the literal allow-list
message. -/
lemma handleFile_type_msg :
    "Unsupported file type. Please upload: " ++ jsJoin ", " allowedTypes =
      "Unsupported file type. Please upload: .pdf, .txt, .docx, .doc" := by
  decide

/-- If the lower-cased dotted extension is not allowed, neither is the
extension string the code computes. -/
lemma fileExtOf_not_allowed (name : String)
    (h : ("." ++ jsToLower (lastDotSuffix name)) ∉ allowedTypes) :
    fileExtOf name ∉ allowedTypes := by
  unfold fileExtOf
  by_cases hd : jsIncludes name "." = true
  · by_cases he : lastDotSuffix name = ""
    · simp only [hd, if_true, he, if_pos]
      decide
    · simp only [hd, if_true, if_neg he]
      exact h
  · simp only [Bool.not_eq_true] at hd
    simp only [hd, Bool.false_eq_true, if_false, if_pos rfl]
    decide

/-- Claim C1, counterexample: the file `brief.PDF` has `PDF` as the text
after its last dot, so its dotted extension `.PDF` is not one of
`.pdf, .txt, .docx, .doc`; the claim then demands a rejection, but
`handleFile` lower-cases the extension and issues the upload request. -/
theorem upload_disallowed_extension_counterexample :
    ("." ++ lastDotSuffix "brief.PDF") ∉ allowedTypes ∧
      handleFile "brief.PDF" 1000 = UploadOutcome.uploadRequest := by
  decide

/-- Claim C1, amended: for every file whose extension — the text after
the last dot, compared case-insensitively (lower-cased) — is not in the
allow-list, `handleFile` issues no network request and reports an error
message containing the allow-list `.pdf, .txt, .docx, .doc`. -/
theorem upload_disallowed_extension_rejected (name : String) (size : Nat)
    (h : ("." ++ jsToLower (lastDotSuffix name)) ∉ allowedTypes) :
    ∃ msg, handleFile name size = UploadOutcome.rejected msg ∧
      ∃ pre post, msg = pre ++ ".pdf, .txt, .docx, .doc" ++ post := by
  have hext := fileExtOf_not_allowed name h
  unfold handleFile
  rw [if_pos hext]
  exact ⟨_, rfl, "Unsupported file type. Please upload: ", "", by decide⟩

/-- Witness for C1's amended theorem at the concrete file
`contract.xyz`. -/
theorem upload_disallowed_extension_rejected_witness :
    ∃ msg, handleFile "contract.xyz" 10 = UploadOutcome.rejected msg ∧
      ∃ pre post, msg = pre ++ ".pdf, .txt, .docx, .doc" ++ post :=
  upload_disallowed_extension_rejected "contract.xyz" 10 (by decide)

/-- Claim C2, counterexample: an oversized file named `archive.zip` is
indeed rejected with no network request, but the reported message is the
unsupported-type message, not the file-too-large message, because the
extension check runs first. -/
theorem upload_oversize_counterexample :
    52428801 > 50 * 1024 * 1024 ∧
      handleFile "archive.zip" 52428801 =
        UploadOutcome.rejected
          ("Unsupported file type. Please upload: " ++ jsJoin ", " allowedTypes) ∧
      ("Unsupported file type. Please upload: " ++ jsJoin ", " allowedTypes) ≠
        "File too large. Maximum size is 50MB." := by
  decide

/-- Claim C2, amended: every file strictly larger than `50*1024*1024`
bytes is rejected with no network request; the message is the
file-too-large message whenever the extension check passes (a disallowed
extension reports the unsupported-type message instead); and a file of
exactly `50*1024*1024` bytes with an allowed extension passes both
checks, so the upload request is issued. -/
theorem upload_oversize_rejected (name : String) (size : Nat) :
    (size > 50 * 1024 * 1024 →
      ∃ msg, handleFile name size = UploadOutcome.rejected msg ∧
        (fileExtOf name ∈ allowedTypes →
          msg = "File too large. Maximum size is 50MB.")) ∧
    (fileExtOf name ∈ allowedTypes →
      handleFile name (50 * 1024 * 1024) = UploadOutcome.uploadRequest) := by
  constructor
  · intro hsize
    unfold handleFile
    by_cases hm : fileExtOf name ∈ allowedTypes
    · rw [if_neg (not_not_intro hm), if_pos hsize]
      exact ⟨_, rfl, fun _ => rfl⟩
    · rw [if_pos hm]
      exact ⟨_, rfl, fun hc => absurd hc hm⟩
  · intro hm
    unfold handleFile
    rw [if_neg (not_not_intro hm), if_neg (by omega)]

/-- Witness for C2's amended theorem at the concrete file `brief.pdf`,
once just above the limit and once exactly at it. -/
theorem upload_oversize_rejected_witness :
    (∃ msg, handleFile "brief.pdf" 52428801 = UploadOutcome.rejected msg ∧
      (fileExtOf "brief.pdf" ∈ allowedTypes →
        msg = "File too large. Maximum size is 50MB.")) ∧
    handleFile "brief.pdf" (50 * 1024 * 1024) = UploadOutcome.uploadRequest :=
  ⟨(upload_oversize_rejected "brief.pdf" 52428801).1 (by decide),
   (upload_oversize_rejected "brief.pdf" 52428801).2 (by decide)⟩

/-- The monitor's trace on a `failed` status response. -/
lemma runMonitor_failed (sess : SessionStatus) (rest : List (Fetch SessionStatus))
    (res : Fetch Bool) (h : sess.status = "failed") :
    runMonitor (Fetch.ok sess :: rest) res =
      [MonitorEvent.statusGet, MonitorEvent.statusSet sess.status,
       MonitorEvent.errorSet (jsOr sess.error "Processing failed")] := by
  simp only [runMonitor]
  rw [if_neg (by rw [h]; decide), if_neg (by rw [h]; decide),
    if_neg (by rw [h]; decide), if_pos h]

/-- Claim C3, counterexample: on a `failed` status whose error field is
present but equal to the empty string, the poller displays the default
`Processing failed`, not the received field verbatim (JS `||` treats the
empty string as falsy). -/
theorem poller_failed_counterexample :
    runMonitor [Fetch.ok ⟨"failed", some ""⟩] (Fetch.ok true) =
      [MonitorEvent.statusGet, MonitorEvent.statusSet "failed",
       MonitorEvent.errorSet "Processing failed"] ∧
    (applyEvents ⟨"processing", none, 0, false, none⟩
        (runMonitor [Fetch.ok ⟨"failed", some ""⟩] (Fetch.ok true))).pageError =
      some "Processing failed" ∧
    ("Processing failed" : String) ≠ "" := by
  refine ⟨?_, ?_, by decide⟩ <;> rfl

/-- Claim C3, amended: a `failed` status response stops polling (the one
status request that received it is the last) and sets the displayed
error to the session's error field when that field is a non-empty
string, and to the default `Processing failed` when the field is absent
or empty. -/
theorem poller_failed_stops_and_reports (sess : SessionStatus)
    (rest : List (Fetch SessionStatus)) (res : Fetch Bool) (ps : PageState)
    (h : sess.status = "failed") :
    runMonitor (Fetch.ok sess :: rest) res =
      [MonitorEvent.statusGet, MonitorEvent.statusSet sess.status,
       MonitorEvent.errorSet (jsOr sess.error "Processing failed")] ∧
    countStatusGets (runMonitor (Fetch.ok sess :: rest) res) = 1 ∧
    (applyEvents ps (runMonitor (Fetch.ok sess :: rest) res)).pageError =
      some (jsOr sess.error "Processing failed") ∧
    (∀ e, sess.error = some e → e ≠ "" →
      jsOr sess.error "Processing failed" = e) ∧
    ((sess.error = none ∨ sess.error = some "") →
      jsOr sess.error "Processing failed" = "Processing failed") := by
  have ht := runMonitor_failed sess rest res h
  refine ⟨ht, ?_, ?_, ?_, ?_⟩
  · rw [ht]; rfl
  · rw [ht]; rfl
  · intro e he hne
    rw [he]
    simp [jsOr, hne]
  · rintro (he | he) <;> rw [he] <;> rfl

/-- Witness for C3's amended theorem: a `failed` response carrying a
non-empty error string. -/
theorem poller_failed_stops_and_reports_witness :
    runMonitor [Fetch.ok ⟨"failed", some "OCR crashed"⟩] (Fetch.ok true) =
      [MonitorEvent.statusGet, MonitorEvent.statusSet
        (⟨"failed", some "OCR crashed"⟩ : SessionStatus).status,
       MonitorEvent.errorSet
        (jsOr (⟨"failed", some "OCR crashed"⟩ : SessionStatus).error
          "Processing failed")] ∧
    countStatusGets (runMonitor [Fetch.ok ⟨"failed", some "OCR crashed"⟩]
        (Fetch.ok true)) = 1 ∧
    (applyEvents ⟨"processing", none, 0, false, none⟩
        (runMonitor [Fetch.ok ⟨"failed", some "OCR crashed"⟩]
          (Fetch.ok true))).pageError =
      some (jsOr (⟨"failed", some "OCR crashed"⟩ : SessionStatus).error
        "Processing failed") ∧
    (∀ e, (⟨"failed", some "OCR crashed"⟩ : SessionStatus).error = some e →
      e ≠ "" →
      jsOr (⟨"failed", some "OCR crashed"⟩ : SessionStatus).error
        "Processing failed" = e) ∧
    (((⟨"failed", some "OCR crashed"⟩ : SessionStatus).error = none ∨
        (⟨"failed", some "OCR crashed"⟩ : SessionStatus).error = some "") →
      jsOr (⟨"failed", some "OCR crashed"⟩ : SessionStatus).error
        "Processing failed" = "Processing failed") :=
  poller_failed_stops_and_reports ⟨"failed", some "OCR crashed"⟩ []
    (Fetch.ok true) ⟨"processing", none, 0, false, none⟩ rfl

/-- Claim C4: on a `completed` status response the monitor issues
exactly one results request, issues no further status requests (the one
that received `completed` is the only one in the trace), and whenever
the results response is successful the `onComplete` callback moves the
page to the `results` step with the results stored. -/
theorem poller_completed_fetches_results_once (sess : SessionStatus)
    (rest : List (Fetch SessionStatus)) (res : Fetch Bool) (ps : PageState)
    (h : sess.status = "completed") :
    countResultsGets (runMonitor (Fetch.ok sess :: rest) res) = 1 ∧
    countStatusGets (runMonitor (Fetch.ok sess :: rest) res) = 1 ∧
    (res = Fetch.ok true →
      (applyEvents ps (runMonitor (Fetch.ok sess :: rest) res)).currentStep =
          "results" ∧
        (applyEvents ps (runMonitor (Fetch.ok sess :: rest) res)).resultsStored =
          true) := by
  have ht : runMonitor (Fetch.ok sess :: rest) res =
      MonitorEvent.statusGet :: MonitorEvent.statusSet sess.status ::
        MonitorEvent.progressSet 100 :: MonitorEvent.resultsGet ::
        (match res with
         | .ok true => [MonitorEvent.complete]
         | .ok false => []
         | .thrown d =>
           [MonitorEvent.errorSet (jsOr d "Failed to check processing status")]) := by
    simp only [runMonitor]
    rw [if_neg (by rw [h]; decide), if_neg (by rw [h]; decide), if_pos h]
  rw [ht]
  rcases res with val | d
  · rcases val with _ | _
    · exact ⟨rfl, rfl, by intro he; simp at he⟩
    · exact ⟨rfl, rfl, fun _ => ⟨rfl, rfl⟩⟩
  · exact ⟨rfl, rfl, by intro he; simp at he⟩

/-- Witness for C4 at a concrete `completed` response with a successful
results fetch. -/
theorem poller_completed_fetches_results_once_witness :
    countResultsGets (runMonitor [Fetch.ok ⟨"completed", none⟩]
      (Fetch.ok true)) = 1 ∧
    countStatusGets (runMonitor [Fetch.ok ⟨"completed", none⟩]
      (Fetch.ok true)) = 1 ∧
    (Fetch.ok true = Fetch.ok true →
      (applyEvents ⟨"processing", none, 0, false, none⟩
          (runMonitor [Fetch.ok ⟨"completed", none⟩]
            (Fetch.ok true))).currentStep = "results" ∧
      (applyEvents ⟨"processing", none, 0, false, none⟩
          (runMonitor [Fetch.ok ⟨"completed", none⟩]
            (Fetch.ok true))).resultsStored = true) :=
  poller_completed_fetches_results_once ⟨"completed", none⟩ [] (Fetch.ok true)
    ⟨"processing", none, 0, false, none⟩ rfl

/-- The monitor's trace on a non-terminal status response: it reschedules
after the fixed 2000ms delay, with the progress value of the branch
taken. -/
lemma runMonitor_nonterminal (sess : SessionStatus)
    (rest : List (Fetch SessionStatus)) (res : Fetch Bool)
    (hc : sess.status ≠ "completed") (hf : sess.status ≠ "failed") :
    ∃ p, runMonitor (Fetch.ok sess :: rest) res =
      [MonitorEvent.statusGet, MonitorEvent.statusSet sess.status,
       MonitorEvent.progressSet p, MonitorEvent.sleep 2000] ++
        runMonitor rest res := by
  simp only [runMonitor]
  by_cases h1 : sess.status = "uploaded"
  · exact ⟨25, by rw [if_pos h1]; rfl⟩
  · by_cases h2 : sess.status = "processing"
    · exact ⟨50, by rw [if_neg h1, if_pos h2]; rfl⟩
    · exact ⟨10, by rw [if_neg h1, if_neg h2, if_neg hc, if_neg hf]; rfl⟩

/-- The summary poller's trace on a non-terminal status response. -/
lemma runPollStatus_nonterminal (sess : SessionStatus)
    (rest : List (Fetch SessionStatus)) (res : Fetch Bool)
    (hc : sess.status ≠ "completed") (hf : sess.status ≠ "failed") :
    runPollStatus (Fetch.ok sess :: rest) res =
      [MonitorEvent.statusGet, MonitorEvent.statusSet sess.status,
       MonitorEvent.sleep 2000] ++ runPollStatus rest res := by
  simp only [runPollStatus]
  rw [if_neg hc, if_neg hf]
  rfl

/-- `countStatusGets` of the four-event non-terminal prefix. -/
lemma countStatusGets_nonterminal_prefix (st : String) (p : Nat)
    (evs : List MonitorEvent) :
    countStatusGets ([MonitorEvent.statusGet, MonitorEvent.statusSet st,
        MonitorEvent.progressSet p, MonitorEvent.sleep 2000] ++ evs) =
      countStatusGets evs + 1 := by
  simp [countStatusGets]

/-- Claim C5: every status response that is neither `completed` nor
`failed` makes both pollers schedule the next status request after the
fixed 2000ms delay, and there is no retry bound: a backend that answers
`processing` forever draws one status request per response, without
limit, from both pollers. -/
theorem poller_nonterminal_continues :
    (∀ (sess : SessionStatus) (rest : List (Fetch SessionStatus))
        (res : Fetch Bool),
      sess.status ≠ "completed" → sess.status ≠ "failed" →
      ∃ p, runMonitor (Fetch.ok sess :: rest) res =
        [MonitorEvent.statusGet, MonitorEvent.statusSet sess.status,
         MonitorEvent.progressSet p, MonitorEvent.sleep 2000] ++
          runMonitor rest res) ∧
    (∀ (sess : SessionStatus) (rest : List (Fetch SessionStatus))
        (res : Fetch Bool),
      sess.status ≠ "completed" → sess.status ≠ "failed" →
      runPollStatus (Fetch.ok sess :: rest) res =
        [MonitorEvent.statusGet, MonitorEvent.statusSet sess.status,
         MonitorEvent.sleep 2000] ++ runPollStatus rest res) ∧
    (∀ (n : Nat) (res : Fetch Bool),
      countStatusGets (runMonitor
        (List.replicate n (Fetch.ok ⟨"processing", none⟩)) res) = n) ∧
    (∀ (n : Nat) (res : Fetch Bool),
      countStatusGets (runPollStatus
        (List.replicate n (Fetch.ok ⟨"processing", none⟩)) res) = n) := by
  refine ⟨runMonitor_nonterminal, runPollStatus_nonterminal, ?_, ?_⟩
  · intro n res
    induction n with
    | zero => rfl
    | succ k ih =>
      rw [List.replicate_succ]
      obtain ⟨p, hp⟩ := runMonitor_nonterminal ⟨"processing", none⟩
        (List.replicate k (Fetch.ok ⟨"processing", none⟩)) res
        (by decide) (by decide)
      rw [hp, countStatusGets_nonterminal_prefix, ih]
  · intro n res
    induction n with
    | zero => rfl
    | succ k ih =>
      rw [List.replicate_succ,
        runPollStatus_nonterminal ⟨"processing", none⟩
          (List.replicate k (Fetch.ok ⟨"processing", none⟩)) res
          (by decide) (by decide)]
      simp [countStatusGets, ih]

/-- Witness for C5 at a concrete `processing` response for each poller,
and at two consecutive unanswered `processing` responses for the
unbounded-request counts. -/
theorem poller_nonterminal_continues_witness :
    (∃ p, runMonitor [Fetch.ok ⟨"processing", none⟩] (Fetch.ok true) =
      [MonitorEvent.statusGet, MonitorEvent.statusSet
        (⟨"processing", none⟩ : SessionStatus).status,
       MonitorEvent.progressSet p, MonitorEvent.sleep 2000] ++
        runMonitor [] (Fetch.ok true)) ∧
    runPollStatus [Fetch.ok ⟨"processing", none⟩] (Fetch.ok true) =
      [MonitorEvent.statusGet, MonitorEvent.statusSet
        (⟨"processing", none⟩ : SessionStatus).status,
       MonitorEvent.sleep 2000] ++ runPollStatus [] (Fetch.ok true) ∧
    countStatusGets (runMonitor
      (List.replicate 7 (Fetch.ok ⟨"processing", none⟩)) (Fetch.ok true)) = 7 ∧
    countStatusGets (runPollStatus
      (List.replicate 7 (Fetch.ok ⟨"processing", none⟩)) (Fetch.ok true)) = 7 :=
  ⟨poller_nonterminal_continues.1 ⟨"processing", none⟩ [] (Fetch.ok true)
      (by decide) (by decide),
   poller_nonterminal_continues.2.1 ⟨"processing", none⟩ [] (Fetch.ok true)
      (by decide) (by decide),
   poller_nonterminal_continues.2.2.1 7 (Fetch.ok true),
   poller_nonterminal_continues.2.2.2 7 (Fetch.ok true)⟩

/-- In every reachable `RAGChat` state, a request is recorded as
outstanding exactly while the loading flag is set: `sendMessage` sets
both together and the `finally` block clears both together. -/
lemma pending_isSome_eq_isLoading {sid : Option String} {s : ChatState}
    (h : ChatReachable sid s) : s.pending.isSome = s.isLoading := by
  induction h with
  | init => rfl
  | input v s _ ih => simpa [setInput] using ih
  | send now s _ ih =>
    by_cases hg :
        (jsTrim s.message == "" || s.isLoading || !jsTruthyOpt sid) = true
    · simpa [sendMessage, hg] using ih
    · simp only [Bool.not_eq_true] at hg
      simp [sendMessage, hg]
  | resolve now s p r _ _ ih =>
    cases r <;> simp [resolveChat, appendChatError]

/-- Claim C6, counterexample: after one send, a request is outstanding;
typing a new message and calling `sendMessage` again changes nothing and
aborts nothing (the loading guard returns immediately), and the
outstanding request's answer, when it arrives, is appended to the chat
history. -/
theorem chat_send_while_pending_counterexample :
    ((setInput "again"
        (sendMessage (some "sess-1") "t1"
          (setInput "hello" initChatState)).1).pending =
      some ⟨"hello", true, 45000⟩) ∧
    ((setInput "again"
        (sendMessage (some "sess-1") "t1"
          (setInput "hello" initChatState)).1).isLoading = true) ∧
    (sendMessage (some "sess-1") "t2"
        (setInput "again"
          (sendMessage (some "sess-1") "t1"
            (setInput "hello" initChatState)).1) =
      (setInput "again"
        (sendMessage (some "sess-1") "t1"
          (setInput "hello" initChatState)).1, [])) ∧
    ((resolveChat "t3"
        (setInput "again"
          (sendMessage (some "sess-1") "t1"
            (setInput "hello" initChatState)).1)
        ⟨"hello", true, 45000⟩
        (ChatOutcome.answer (some "The agreement ends in 2025.")
          none none none none)).1.chatHistory =
      (setInput "again"
        (sendMessage (some "sess-1") "t1"
          (setInput "hello" initChatState)).1).chatHistory ++
        [{ role := Role.assistant, message := "The agreement ends in 2025.",
           timestamp := "t3", sources := some [] }]) := by
  refine ⟨by decide, by decide, by decide, by decide⟩

/-- Claim C6, amended: in every reachable state with an outstanding
chat request, `sendMessage` is a complete no-op — the state is unchanged
and no effect, in particular no abort of the prior request, is issued —
and the outstanding request's successful answer, when it arrives, is
appended to the chat history as usual.  (Two chat requests can therefore
never overlap, which is how the code prevents a stale response from
racing a new one.) -/
theorem chat_send_while_pending_noop (sid : Option String) (s : ChatState)
    (hr : ChatReachable sid s) (p : PendingChat) (hp : s.pending = some p) :
    (∀ now, sendMessage sid now s = (s, [])) ∧
    (∀ now ans srcs conf qa pt,
      (resolveChat now s p (ChatOutcome.answer ans srcs conf qa pt)).1.chatHistory =
        s.chatHistory ++
          [{ role := Role.assistant,
             message := jsOr ans "I apologize, but I was unable to generate a response.",
             timestamp := now, sources := some (srcs.getD []),
             confidence := conf, query_analysis := qa,
             processing_time := pt }]) := by
  have hl : s.isLoading = true := by
    rw [← pending_isSome_eq_isLoading hr, hp]
    rfl
  refine ⟨fun now => by simp [sendMessage, hl], fun now ans srcs conf qa pt => rfl⟩

/-- Witness for C6's amended theorem at the concrete reachable state of
the counterexample trace. -/
theorem chat_send_while_pending_noop_witness :
    (∀ now, sendMessage (some "sess-1") now
        (setInput "again"
          (sendMessage (some "sess-1") "t1"
            (setInput "hello" initChatState)).1) =
      ((setInput "again"
        (sendMessage (some "sess-1") "t1"
          (setInput "hello" initChatState)).1), [])) ∧
    (∀ now ans srcs conf qa pt,
      (resolveChat now
          (setInput "again"
            (sendMessage (some "sess-1") "t1"
              (setInput "hello" initChatState)).1)
          (⟨"hello", true, 45000⟩ : PendingChat)
          (ChatOutcome.answer ans srcs conf qa pt)).1.chatHistory =
        (setInput "again"
          (sendMessage (some "sess-1") "t1"
            (setInput "hello" initChatState)).1).chatHistory ++
          [{ role := Role.assistant,
             message := jsOr ans "I apologize, but I was unable to generate a response.",
             timestamp := now, sources := some (srcs.getD []),
             confidence := conf, query_analysis := qa,
             processing_time := pt }]) :=
  chat_send_while_pending_noop (some "sess-1") _
    (ChatReachable.input "again" _
      (ChatReachable.send "t1" _
        (ChatReachable.input "hello" _ ChatReachable.init)))
    ⟨"hello", true, 45000⟩ (by decide)

/-- Claim C7: when the outstanding chat request resolves as aborted (the
timeout fired), the synthetic assistant error message appended is the
document-loading variant exactly when the send was the session's first
query (`!sessionLoaded && chatHistory.length === 0` at send time), and
the query-timeout variant on any later query. -/
theorem chat_timeout_message_variant (sid : Option String) (now now2 : String)
    (s : ChatState) (h1 : jsTruthyOpt sid = true)
    (h2 : ¬(jsTrim s.message = "")) (h3 : s.isLoading = false) :
    ∃ p, (sendMessage sid now s).1.pending = some p ∧
      p.isFirstQuery = (!s.sessionLoaded && s.chatHistory.length == 0) ∧
      (resolveChat now2 (sendMessage sid now s).1 p
          ChatOutcome.aborted).1.chatHistory =
        (sendMessage sid now s).1.chatHistory ++
          [{ role := Role.assistant,
             message :=
               if !s.sessionLoaded && s.chatHistory.length == 0 then
                 loadTimeoutMsg
               else queryTimeoutMsg,
             timestamp := now2, error := true }] := by
  have hg : (jsTrim s.message == "" || s.isLoading || !jsTruthyOpt sid) =
      false := by
    simp [h1, h3, h2]
  refine ⟨⟨jsTrim s.message, !s.sessionLoaded && s.chatHistory.length == 0,
    if !s.sessionLoaded && s.chatHistory.length == 0 then LOAD_TIMEOUT
    else OPTIMIZED_TIMEOUT⟩, ?_, rfl, ?_⟩
  · simp [sendMessage, hg]
  · simp [sendMessage, hg, resolveChat, appendChatError]

/-- Witness for C7 at the session's first query, from a fresh state with
`What is at issue` typed in. -/
theorem chat_timeout_message_variant_witness :
    ∃ p, (sendMessage (some "sess-7") "t1"
        (setInput "What is at issue" initChatState)).1.pending = some p ∧
      p.isFirstQuery =
        (!(setInput "What is at issue" initChatState).sessionLoaded &&
          (setInput "What is at issue" initChatState).chatHistory.length == 0) ∧
      (resolveChat "t2"
          (sendMessage (some "sess-7") "t1"
            (setInput "What is at issue" initChatState)).1 p
          ChatOutcome.aborted).1.chatHistory =
        (sendMessage (some "sess-7") "t1"
          (setInput "What is at issue" initChatState)).1.chatHistory ++
          [{ role := Role.assistant,
             message :=
               if !(setInput "What is at issue" initChatState).sessionLoaded &&
                   (setInput "What is at issue"
                     initChatState).chatHistory.length == 0 then
                 loadTimeoutMsg
               else queryTimeoutMsg,
             timestamp := "t2", error := true }] :=
  chat_timeout_message_variant (some "sess-7") "t1" "t2"
    (setInput "What is at issue" initChatState) (by decide) (by decide) rfl

/-- Claim C8: the constants are 25000ms and 45000ms, the first-query
timeout is strictly longer and both lie in the 15s-45s range; a send
arms the chosen timeout on the single chat request it issues; and a
resolution by timeout or by any thrown network/HTTP failure appends
exactly one synthetic error-flagged message and issues no request at
all — there is no automatic retry. -/
theorem chat_timeout_values_and_failure_append :
    (OPTIMIZED_TIMEOUT = 25000 ∧ LOAD_TIMEOUT = 45000 ∧
      OPTIMIZED_TIMEOUT < LOAD_TIMEOUT ∧
      15000 ≤ OPTIMIZED_TIMEOUT ∧ LOAD_TIMEOUT ≤ 45000) ∧
    (∀ (sid : Option String) (now : String) (s : ChatState),
      jsTruthyOpt sid = true → ¬(jsTrim s.message = "") →
      s.isLoading = false → s.pending = none →
      ∃ p, (sendMessage sid now s).1.pending = some p ∧
        p.timeoutMs =
          (if !s.sessionLoaded && s.chatHistory.length == 0 then LOAD_TIMEOUT
           else OPTIMIZED_TIMEOUT) ∧
        (sendMessage sid now s).2 =
          [ChatEffect.chatRequest (sid.getD "") (jsTrim s.message)
            (some p.timeoutMs)]) ∧
    (∀ (now : String) (s : ChatState) (p : PendingChat),
      ((resolveChat now s p ChatOutcome.aborted).2 = [] ∧
        ∃ m, (resolveChat now s p ChatOutcome.aborted).1.chatHistory =
            s.chatHistory ++ [m] ∧ m.error = true) ∧
      (∀ msg, (resolveChat now s p (ChatOutcome.failure msg)).2 = [] ∧
        ∃ m, (resolveChat now s p (ChatOutcome.failure msg)).1.chatHistory =
            s.chatHistory ++ [m] ∧ m.error = true)) := by
  refine ⟨by decide, ?_, ?_⟩
  · intro sid now s h1 h2 h3 h4
    have hg : (jsTrim s.message == "" || s.isLoading || !jsTruthyOpt sid) =
        false := by
      simp [h1, h3, h2]
    refine ⟨⟨jsTrim s.message, !s.sessionLoaded && s.chatHistory.length == 0,
      if !s.sessionLoaded && s.chatHistory.length == 0 then LOAD_TIMEOUT
      else OPTIMIZED_TIMEOUT⟩, ?_, rfl, ?_⟩
    · simp [sendMessage, hg]
    · simp [sendMessage, hg, h4]
  · intro now s p
    exact ⟨⟨rfl, _, rfl, rfl⟩, fun msg => ⟨rfl, _, rfl, rfl⟩⟩

/-- Witness for C8: a first-query send from a fresh state, and the
abort/failure resolutions at a concrete pending request. -/
theorem chat_timeout_values_and_failure_append_witness :
    (∃ p, (sendMessage (some "sess-8") "t1"
        (setInput "hello there" initChatState)).1.pending = some p ∧
      p.timeoutMs =
        (if !(setInput "hello there" initChatState).sessionLoaded &&
            (setInput "hello there" initChatState).chatHistory.length == 0 then
           LOAD_TIMEOUT
         else OPTIMIZED_TIMEOUT) ∧
      (sendMessage (some "sess-8") "t1"
          (setInput "hello there" initChatState)).2 =
        [ChatEffect.chatRequest ((some "sess-8").getD "")
          (jsTrim (setInput "hello there" initChatState).message)
          (some p.timeoutMs)]) ∧
    ((resolveChat "t2" initChatState ⟨"q", false, 25000⟩
        ChatOutcome.aborted).2 = [] ∧
      ∃ m, (resolveChat "t2" initChatState ⟨"q", false, 25000⟩
          ChatOutcome.aborted).1.chatHistory =
        initChatState.chatHistory ++ [m] ∧ m.error = true) :=
  ⟨chat_timeout_values_and_failure_append.2.1 (some "sess-8") "t1"
      (setInput "hello there" initChatState) (by decide) (by decide) rfl rfl,
   (chat_timeout_values_and_failure_append.2.2 "t2" initChatState
      ⟨"q", false, 25000⟩).1⟩

/-- Claim C9: both chat machines treat the history as append-only —
`sendMessage` either leaves the history unchanged (guard hit) or appends
exactly the one new user message at the end, and every resolution of a
request appends exactly one assistant message at the end; no existing
entry is modified or removed by any of these operations. -/
theorem chat_history_append_only :
    (∀ (sid : Option String) (now : String) (s : ChatState),
      (sendMessage sid now s).1.chatHistory = s.chatHistory ∨
      ∃ m, (sendMessage sid now s).1.chatHistory = s.chatHistory ++ [m] ∧
        m.role = Role.user) ∧
    (∀ (now : String) (s : ChatState) (p : PendingChat) (r : ChatOutcome),
      ∃ m, (resolveChat now s p r).1.chatHistory = s.chatHistory ++ [m] ∧
        m.role = Role.assistant) ∧
    (∀ (sessionId now : String) (s : CIState),
      (ciSendMessage sessionId now s).1.chatHistory = s.chatHistory ∨
      ∃ m, (ciSendMessage sessionId now s).1.chatHistory =
          s.chatHistory ++ [m] ∧ m.role = Role.user) ∧
    (∀ (now : String) (s : CIState) (r : CIOutcome),
      ∃ m, (ciResolve now s r).1.chatHistory = s.chatHistory ++ [m] ∧
        m.role = Role.assistant) := by
  refine ⟨?_, ?_, ?_, ?_⟩
  · intro sid now s
    by_cases hg :
        (jsTrim s.message == "" || s.isLoading || !jsTruthyOpt sid) = true
    · left
      simp [sendMessage, hg]
    · right
      simp only [Bool.not_eq_true] at hg
      refine ⟨{ role := Role.user, message := jsTrim s.message,
                timestamp := now }, ?_, rfl⟩
      simp [sendMessage, hg]
  · intro now s p r
    cases r with
    | answer ans srcs conf qa pt => exact ⟨_, rfl, rfl⟩
    | aborted => exact ⟨_, rfl, rfl⟩
    | failure msg => exact ⟨_, rfl, rfl⟩
  · intro sessionId now s
    by_cases hg :
        (jsTrim s.message == "" || s.isLoading || !s.ragInitialized) = true
    · left
      simp [ciSendMessage, hg]
    · right
      simp only [Bool.not_eq_true] at hg
      refine ⟨{ role := Role.user, message := jsTrim s.message,
                timestamp := now }, ?_, rfl⟩
      simp [ciSendMessage, hg]
  · intro now s r
    cases r with
    | success answer srcs conf qa => exact ⟨_, rfl, rfl⟩
    | failure detail msg => exact ⟨_, rfl, rfl⟩

/-- Claim C10: calling `sendMessage` while a request is outstanding, or
with an input that trims to the empty string, or without a truthy
session id, is a complete no-op — the returned state is the input state
(history, input field, loading flag and outstanding request all
unchanged) and no effect, in particular no network request, is
produced. -/
theorem chat_send_guard_noop (sid : Option String) (now : String)
    (s : ChatState) (hr : ChatReachable sid s)
    (h : s.pending.isSome = true ∨ jsTrim s.message = "" ∨
      jsTruthyOpt sid = false) :
    sendMessage sid now s = (s, []) := by
  rcases h with h | h | h
  · have hl : s.isLoading = true := by
      rw [← pending_isSome_eq_isLoading hr]
      exact h
    simp [sendMessage, hl]
  · simp [sendMessage, h]
  · simp [sendMessage, h]

/-- Witness for C10: with no session id, `sendMessage` from the initial
state is a no-op. -/
theorem chat_send_guard_noop_witness :
    sendMessage none "t0" initChatState = (initChatState, []) :=
  chat_send_guard_noop none "t0" initChatState ChatReachable.init
    (Or.inr (Or.inr (by decide)))

end LegalApp
